import Mathlib

/-!
Shallow embedding of the tile-pyramid and dataset-lifecycle core of
`xcube-server` (files `xcube_server/im/tilegrid.py`, `xcube_server/pyramid.py`,
`xcube_server/context.py`), together with theorems settling the behavioural
claims about it.

Python `int` is modelled as `Int` (arbitrary precision, as in Python),
Python `None`-able integer parameters as `Option Int`, raised exceptions as
`Except`, and Python's stable list sort as insertion sort (`List.insertionSort`
with a `≤`-by-key relation, which is stable).  `float` geographic coordinates
are modelled as `Rat`; the concrete paths examined only compare them for
exact equality on values such as `-180`, `180`, `-90`, `90`, which is exact
in both `float64` and `Rat`.
-/

/-! ## tilegrid.py: mode constants -/

def MODE_LE : Int := -1

def MODE_EQ : Int := 0

def MODE_GE : Int := 1

/-- A 1D subdivision candidate `(s_max, ts, nt0, nl)` as built by
`pow2_1d_subdivisions`: highest-level pixel extent, tile size, number of
level-zero tiles and number of levels. -/
structure Subdiv where
  smax : Int
  ts : Int
  nt0 : Int
  nl : Int
deriving DecidableEq, Repr, Inhabited

/-- Python truthiness-based `x or d` for an optional integer: `None` and `0`
are falsy and give the default `d`. -/
def pyOr (o : Option Int) (d : Int) : Int :=
  match o with
  | some v => if v = 0 then d else v
  | none => d

/-- Python truthiness-based `x or d` for a plain integer (`0` is falsy). -/
def pyOrInt (v d : Int) : Int :=
  if v = 0 then d else v

/-- The innermost loop of `pow2_1d_subdivisions`:
`for nl in range(2, nl_max)` with its `break` statements, for a fixed tile
size `ts` and level-zero tile count `nt0`.  `fuel` counts the remaining
iterations (`(nl_max - 2).toNat` initially); `nl` is the current level count. -/
def nl_loop (s s_mode s_max_min s_max_max ts nt0 : Int) : Nat → Int → List Subdiv
  | 0, _ => []
  | Nat.succ fuel, nl =>
    let nt : Int := 2 ^ (nl - 1).toNat * nt0
    let smax : Int := nt * ts
    if s_mode = MODE_GE then
      if s ≤ smax then
        if s_max_max < smax then []
        else ⟨smax, ts, nt0, nl⟩ :: nl_loop s s_mode s_max_min s_max_max ts nt0 fuel (nl + 1)
      else nl_loop s s_mode s_max_min s_max_max ts nt0 fuel (nl + 1)
    else if s_mode = MODE_LE then
      if smax ≤ s ∧ s_max_min ≤ smax then
        ⟨smax, ts, nt0, nl⟩ :: nl_loop s s_mode s_max_min s_max_max ts nt0 fuel (nl + 1)
      else nl_loop s s_mode s_max_min s_max_max ts nt0 fuel (nl + 1)
    else
      if smax = s then ⟨smax, ts, nt0, nl⟩ :: nl_loop s s_mode s_max_min s_max_max ts nt0 fuel (nl + 1)
      else if s < smax then []
      else nl_loop s s_mode s_max_min s_max_max ts nt0 fuel (nl + 1)

/-- The middle loop of `pow2_1d_subdivisions`: `for nt0 in range(1, nt0_max)`
with its leading `break` when `nt0 * ts` already exceeds `s_max_max`. -/
def nt0_loop (s s_mode s_max_min s_max_max ts nlMax : Int) : Nat → Int → List Subdiv
  | 0, _ => []
  | Nat.succ fuel, nt0 =>
    if s_max_max < nt0 * ts then []
    else
      nl_loop s s_mode s_max_min s_max_max ts nt0 (nlMax - 2).toNat 2 ++
        nt0_loop s s_mode s_max_min s_max_max ts nlMax fuel (nt0 + 1)

/-- The outer loop of `pow2_1d_subdivisions`: `for ts in range(ts_min, ts_max + 1)`,
computing the per-tile-size slack bounds `s_max_min` and `s_max_max`. -/
def ts_loop (s s_mode nt0Max nlMax : Int) : Nat → Int → List Subdiv
  | 0, _ => []
  | Nat.succ fuel, ts =>
    let sMaxMin := if s_mode = MODE_EQ ∨ s_mode = MODE_GE then s else s - (ts - 1)
    let sMaxMax := if s_mode = MODE_EQ ∨ s_mode = MODE_LE then s else s + (ts - 1)
    nt0_loop s s_mode sMaxMin sMaxMax ts nlMax (nt0Max - 1).toNat 1 ++
      ts_loop s s_mode nt0Max nlMax fuel (ts + 1)

/-- All subdivision candidates accepted by the three nested loops of
`pow2_1d_subdivisions`, in generation order. -/
def genSubdivisions (s s_mode tsMin tsMax nt0Max nlMax : Int) : List Subdiv :=
  ts_loop s s_mode nt0Max nlMax (tsMax + 1 - tsMin).toNat tsMin

/-- Stable ascending sort by an integer key (Python's `list.sort(key=...)`
is a stable sort; insertion sort with `≤` on keys is stable as well). -/
def sortByKey (key : Subdiv → Int) (l : List Subdiv) : List Subdiv :=
  List.insertionSort (fun a b => key a ≤ key b) l

/-- The four successive stable sorts at the end of `pow2_1d_subdivisions`:
maximize `nl`; then minimize `abs (ts - ts_opt)` when `ts_opt` is truthy;
then minimize `nt0`; finally (dominant, applied last) minimize the signed
difference `s_max - s` (the source sorts by `r[0] - s`, not by its absolute
value). -/
def rank_subdivisions (ts_opt : Option Int) (s : Int) (l : List Subdiv) : List Subdiv :=
  let l1 := sortByKey (fun r => -r.nl) l
  let l2 :=
    match ts_opt with
    | some v => if v = 0 then l1 else sortByKey (fun r => |r.ts - v|) l1
    | none => l1
  let l3 := sortByKey (fun r => r.nt0) l2
  sortByKey (fun r => r.smax - s) l3

/-- Effective `ts_min` after Python's `ts_min or min(s, (ts_opt // 2 if ts_opt else 200))`. -/
def eff_ts_min (s : Int) (ts_opt ts_min : Option Int) : Int :=
  pyOr ts_min (min s (match ts_opt with
    | some v => if v = 0 then 200 else v.ediv 2
    | none => 200))

/-- Effective `ts_max` after Python's `ts_max or min(s, (ts_opt * 2 if ts_opt else 1200))`. -/
def eff_ts_max (s : Int) (ts_opt ts_max : Option Int) : Int :=
  pyOr ts_max (min s (match ts_opt with
    | some v => if v = 0 then 1200 else v * 2
    | none => 1200))

/-- Effective `nt0_max` after Python's `nt0_max or 8`. -/
def eff_nt0_max (nt0_max : Option Int) : Int := pyOr nt0_max 8

/-- Effective `nl_max` after Python's `nl_max or 16`. -/
def eff_nl_max (nl_max : Option Int) : Int := pyOr nl_max 16

/-- Python's `ts_opt is not None and ts_opt < 1` check. -/
def optLt1 : Option Int → Bool
  | some v => v < 1
  | none => false

/-- `pow2_1d_subdivisions` from `tilegrid.py`: validation, the `s == ts_opt`
short-circuit, candidate enumeration, the single-tile fallback, and the final
ranking by four stable sorts. -/
def pow2_1d_subdivisions (s s_mode : Int)
    (ts_opt ts_min ts_max nt0_max nl_max : Option Int) : Except String (List Subdiv) :=
  if s < 1 then .error "invalid s"
  else if ts_opt = some s then .ok [⟨s, s, 1, 1⟩]
  else if eff_ts_min s ts_opt ts_min < 1 then .error "invalid ts_min"
  else if eff_ts_max s ts_opt ts_max < 1 then .error "invalid ts_max"
  else if optLt1 ts_opt then .error "invalid ts_opt"
  else if eff_nt0_max nt0_max < 1 then .error "invalid nt0_max"
  else if eff_nl_max nl_max < 1 then .error "invalid nl_max"
  else if genSubdivisions s s_mode (eff_ts_min s ts_opt ts_min) (eff_ts_max s ts_opt ts_max)
        (eff_nt0_max nt0_max) (eff_nl_max nl_max) = [] then .ok [⟨s, s, 1, 1⟩]
  else .ok (rank_subdivisions ts_opt s
    (genSubdivisions s s_mode (eff_ts_min s ts_opt ts_min) (eff_ts_max s ts_opt ts_max)
      (eff_nt0_max nt0_max) (eff_nl_max nl_max)))

/-- `pow2_1d_subdivision`: the first (best-ranked) subdivision. -/
def pow2_1d_subdivision (s s_mode : Int)
    (ts_opt ts_min ts_max nt0_max nl_max : Option Int) : Except String Subdiv :=
  (pow2_1d_subdivisions s s_mode ts_opt ts_min ts_max nt0_max nl_max).map (fun l => l.headI)

/-- `pow2_2d_subdivision` from `tilegrid.py`: best 1D subdivision per axis,
then reconciliation of the level counts (`nl = min`, recomputing the
level-zero tile count of the axis that had more levels). -/
def pow2_2d_subdivision (w h w_mode h_mode : Int)
    (tw_opt th_opt tw_min th_min tw_max th_max nt0_max nl_max : Option Int) :
    Except String ((Int × Int) × (Int × Int) × (Int × Int) × Int) := do
  let x ← pow2_1d_subdivision w w_mode tw_opt tw_min tw_max nt0_max nl_max
  let y ← pow2_1d_subdivision h h_mode th_opt th_min th_max nt0_max nl_max
  if x.nl < y.nl then
    let nl := x.nl
    let f : Int := 2 ^ (nl - 1).toNat
    let h0 := (y.smax + f - 1).ediv f
    let nt0y := (h0 + y.ts - 1).ediv y.ts
    return ((x.smax, y.smax), (x.ts, y.ts), (x.nt0, nt0y), nl)
  else if y.nl < x.nl then
    let nl := y.nl
    let f : Int := 2 ^ (nl - 1).toNat
    let w0 := (x.smax + f - 1).ediv f
    let nt0x := (w0 + x.ts - 1).ediv x.ts
    return ((x.smax, y.smax), (x.ts, y.ts), (nt0x, y.nt0), nl)
  else
    return ((x.smax, y.smax), (x.ts, y.ts), (x.nt0, y.nt0), x.nl)

/-! ## The selection described by the specification (for comparison)

The specification describes the candidate ranking as stable sorts applied in
order of increasing priority, with the strongest, last-applied criterion being
the smaller *absolute* distance `|s_max - s|`.  The following definition is
written from the spec's words (it differs from `rank_subdivisions` only in the
final key) so the two can be compared. -/

/-- The ranking exactly as the claim words it: stable sorts by larger
`num_levels` (weakest, applied first), then `tile_size` closest to `ts_opt`
when supplied, then smaller `nt0`, and finally smaller `|s_max - s|`
(strongest, applied last). -/
def claimed_rank_abs (ts_opt : Option Int) (s : Int) (l : List Subdiv) : List Subdiv :=
  let l1 := sortByKey (fun r => -r.nl) l
  let l2 :=
    match ts_opt with
    | some v => if v = 0 then l1 else sortByKey (fun r => |r.ts - v|) l1
    | none => l1
  let l3 := sortByKey (fun r => r.nt0) l2
  sortByKey (fun r => |r.smax - s|) l3

/-- The candidate the claim says `pow2_1d_subdivision` selects: the head of
the abs-keyed stable-sort chain over the accepted candidates. -/
def claimed_selection_abs (s s_mode : Int)
    (ts_opt ts_min ts_max nt0_max nl_max : Option Int) : Subdiv :=
  (claimed_rank_abs ts_opt s
    (genSubdivisions s s_mode (eff_ts_min s ts_opt ts_min) (eff_ts_max s ts_opt ts_max)
      (eff_nt0_max nt0_max) (eff_nl_max nl_max))).headI

/-! ## tilegrid.py: GeoExtent (modelled) and TileGrid -/

/-- Modelled from the spec: `GeoExtent` (its source file `geoextent.py` is not
part of the sources provided) is an immutable geographic rectangle with fields
`west, south, east, north` (float64, modelled as `Rat`), `inv_y` and an `eps`
tolerance. -/
structure GeoExtent where
  west : Rat
  south : Rat
  east : Rat
  north : Rat
  inv_y : Bool
  eps : Rat
deriving DecidableEq, Repr

/-- Modelled from the spec: `coords` is the 4-tuple of the coordinates
`(west, south, east, north)` in the field order the spec lists. -/
def GeoExtent.coords (g : GeoExtent) : Rat × Rat × Rat × Rat :=
  (g.west, g.south, g.east, g.north)

/-- Modelled from the spec: `GeoExtent` equality is tolerance-based on all
four coordinates plus `inv_y`; the tolerance used for a pair is the larger of
the two `eps` fields (the spec does not fix whose `eps` applies; the larger
one keeps the relation symmetric). -/
def GeoExtent.eqv (a b : GeoExtent) : Prop :=
  |a.west - b.west| ≤ max a.eps b.eps ∧
  |a.south - b.south| ≤ max a.eps b.eps ∧
  |a.east - b.east| ≤ max a.eps b.eps ∧
  |a.north - b.north| ≤ max a.eps b.eps ∧
  a.inv_y = b.inv_y

instance (a b : GeoExtent) : Decidable (GeoExtent.eqv a b) := by
  unfold GeoExtent.eqv; infer_instance

/-- `TileGrid` from `tilegrid.py`. -/
structure TileGrid where
  num_levels : Int
  num_level_zero_tiles_x : Int
  num_level_zero_tiles_y : Int
  tile_width : Int
  tile_height : Int
  geo_extent : GeoExtent
deriving DecidableEq, Repr

/-- `TileGrid.__eq__`: compares the five structural fields AND the
geographical extent. -/
def TileGrid.eqv (a b : TileGrid) : Prop :=
  a.num_levels = b.num_levels ∧
  a.tile_width = b.tile_width ∧
  a.tile_height = b.tile_height ∧
  a.num_level_zero_tiles_x = b.num_level_zero_tiles_x ∧
  a.num_level_zero_tiles_y = b.num_level_zero_tiles_y ∧
  GeoExtent.eqv a.geo_extent b.geo_extent

instance (a b : TileGrid) : Decidable (TileGrid.eqv a b) := by
  unfold TileGrid.eqv; infer_instance

/-- `TileGrid.adjust_geo_extent`: stretch the geographic span proportionally
when the pyramid's highest level exceeds the raster extent, anchoring `west`
(wrapping `east` past 180) and the edge fixed by `inv_y`.  The two leading
`assert` statements are modelled as errors. -/
def TileGrid.adjust_geo_extent (g : GeoExtent) (w_old h_old w_new h_new : Int) :
    Except String GeoExtent :=
  if ¬ w_old ≤ w_new then .error "assert w_new >= w_old"
  else if ¬ h_old ≤ h_new then .error "assert h_new >= h_old"
  else
    let (x1, y1, x2, y2) := g.coords
    let gw : Rat := if x1 < x2 then x2 - x1 else 360 + x2 - x1
    let gh : Rat := y2 - y1
    let x2n : Rat :=
      if w_old < w_new then
        let gwn := (w_new : Rat) * gw / (w_old : Rat)
        let c := x1 + gwn
        if 180 < c then c - 360 else c
      else x2
    let yn : Rat × Rat :=
      if h_old < h_new then
        let ghn := (h_new : Rat) * gh / (h_old : Rat)
        if g.inv_y then (y2 - ghn, y2) else (y1, y1 + ghn)
      else (y1, y2)
    .ok ⟨x1, yn.1, x2n, yn.2, g.inv_y, g.eps⟩

/-- `TileGrid.create`: derive the per-axis modes from the geographic extent
(`EQ` when the axis spans the whole globe, else `GE`), run the 2D subdivision
with preferred tile sizes `min(w, tile_width or 256)` / `min(h, tile_height or 256)`,
adjust the extent, and build the grid.  The height-mode test transcribes the
source literally, including its degenerate first disjunct
`gsb_y1 == -90. and gsb_y1 == 90.`. -/
def TileGrid.create (w h tile_width tile_height : Int) (g : GeoExtent) :
    Except String TileGrid :=
  match pow2_2d_subdivision w h
      (if g.west = -180 ∧ g.east = 180 then MODE_EQ else MODE_GE)
      (if (g.south = -90 ∧ g.south = 90) ∨ (g.south = 90 ∧ g.north = -90) then MODE_EQ
       else MODE_GE)
      (some (min w (pyOrInt tile_width 256))) (some (min h (pyOrInt tile_height 256)))
      none none none none none none with
  | .error e => .error e
  | .ok r =>
    match TileGrid.adjust_geo_extent g w h r.1.1 r.1.2 with
    | .error e => .error e
    | .ok g2 => .ok ⟨r.2.2.2, r.2.2.1.1, r.2.2.1.2, r.2.1.1, r.2.1.2, g2⟩

/-! ## pyramid.py: lazy and stored multi-level datasets

Dataset handles (`xarray.Dataset` objects) are modelled as `Nat` identifiers;
a slot value of `none` models Python `None`.  The per-variant
`get_dataset_lazily` retrieval is an oracle parameter `retrieve`; a
`retrieve_count` field counts its invocations. -/

/-- The mutable state of a `LazyMultiLevelDataset` (also the base state of
`StoredMultiLevelDataset`): the fixed-size slot array `_level_datasets` plus
an instrumentation counter for retrieval invocations. -/
structure LazyMLD where
  num_levels : Nat
  level_datasets : List (Option Nat)
  retrieve_count : Nat
deriving DecidableEq, Repr

/-- `LazyMultiLevelDataset.__init__`: fails when `num_levels < 1`, otherwise
allocates `[None] * num_levels`. -/
def LazyMLD.make (num_levels : Int) : Except String LazyMLD :=
  if num_levels < 1 then .error "num_levels must be a positive integer"
  else .ok ⟨num_levels.toNat, List.replicate num_levels.toNat none, 0⟩

/-- `LazyMultiLevelDataset.get_dataset`: if the slot at `index` `is None`,
store the result of the retrieval there, then return the slot's value.
An out-of-range index raises `IndexError` in Python; the claims only concern
valid indices, so that case just returns the state unchanged here. -/
def LazyMLD.get_dataset (retrieve : Nat → Option Nat) (st : LazyMLD) (index : Nat) :
    Option Nat × LazyMLD :=
  match st.level_datasets.get? index with
  | none => (none, st)
  | some cur =>
    match cur with
    | none =>
      let slots := st.level_datasets.set index (retrieve index)
      ((slots.get? index).getD none,
       { st with level_datasets := slots, retrieve_count := st.retrieve_count + 1 })
    | some v => (some v, st)

/-- One directory entry seen by `os.listdir`, together with the
`os.path.isfile` / `os.path.isdir` facts about it. -/
structure DirEntry where
  name : String
  is_file : Bool
  is_dir : Bool
deriving DecidableEq, Repr

/-- `os.path.splitext`: split at the last dot, provided some character before
it (in the file name) is not a dot; leading dots never start an extension. -/
def splitext (s : String) : String × String :=
  let cs := s.toList
  let idxs := (List.range cs.length).filter
    (fun j => (cs.getD j ' ' == '.') && (cs.take j).any (fun c => c != '.'))
  match idxs.getLast? with
  | some j => (⟨cs.take j⟩, ⟨cs.drop j⟩)
  | none => (s, "")

/-- Python `str.isdigit` (restricted to ASCII digits, which is all the level
file names use). -/
def pyIsdigit (s : String) : Bool :=
  !s.isEmpty && s.toList.all Char.isDigit

/-- `int(...)` on a digits-only string. -/
def digitsToNat (s : String) : Nat :=
  s.toList.foldl (fun a c => 10 * a + (c.toNat - Char.toNat '0')) 0

/-- Python `dict` assignment `d[k] = v`: replaces in place when the key is
present (keeping its position), appends otherwise. -/
def dictInsert (k : Int) (v : String × String) :
    List (Int × String × String) → List (Int × String × String)
  | [] => [(k, v)]
  | (k2, v2) :: rest => if k2 = k then (k, v) :: rest else (k2, v2) :: dictInsert k v rest

/-- One step of the directory scan of `StoredMultiLevelDataset.__init__`,
for a single directory entry: track `num_levels = max(num_levels, index + 1)`
over every digit-named entry, and record in the `level_paths` dict the
entries that are `.link` files or `.zarr` directories.  The stored value
keeps the extension and the file name (the directory-path prefix of the
source's `file_path` is dropped, which loses no information). -/
def scanStep (acc : Int × List (Int × String × String)) (e : DirEntry) :
    Int × List (Int × String × String) :=
  let be := splitext e.name
  if pyIsdigit be.1 then
    let index : Int := digitsToNat be.1
    let nlv := max acc.1 (index + 1)
    if e.is_file && (be.2 == ".link") then (nlv, dictInsert index (be.2, e.name) acc.2)
    else if e.is_dir && (be.2 == ".zarr") then (nlv, dictInsert index (be.2, e.name) acc.2)
    else (nlv, acc.2)
  else acc

/-- The full directory scan of `StoredMultiLevelDataset.__init__`: a single
fold over the listing, starting from `num_levels = -1` and an empty dict. -/
def storedScan (entries : List DirEntry) : Int × List (Int × String × String) :=
  entries.foldl scanStep (-1, [])

/-- `StoredMultiLevelDataset.__init__`: scan the directory once, fail when
the discovered maximum index + 1 differs from the number of recorded entries,
then run the `LazyMultiLevelDataset` constructor check. -/
def storedInit (entries : List DirEntry) : Except String (Int × List (Int × String × String)) :=
  if (storedScan entries).1 ≠ (((storedScan entries).2.length : Nat) : Int) then
    .error "Inconsistent pyramid directory"
  else if (storedScan entries).1 < 1 then .error "num_levels must be a positive integer"
  else .ok (storedScan entries)

/-! ## context.py: the dataset registry (`ServiceContext`)

Dataset descriptors keep the fields the registry logic reads; opened
`MultiLevelDataset` objects are modelled as `Nat` handles drawn from a
`next_handle` counter, and `close()` calls are recorded in a `closed` list.
The actual I/O of opening a dataset (local/obs/computed) is the external
opener capability of spec section 6, passed as an oracle. -/

/-- The descriptor fields `context.py` reads: `Identifier`, `Path`,
`FileSystem`, `Format`. -/
structure DatasetDescriptor where
  identifier : String
  path : Option String
  file_system : Option String
  format : Option String
deriving DecidableEq, Repr

/-- The configuration as the registry sees it: the truthiness of the whole
configuration dict, and `config.get('Datasets')` (where Python `None` and `[]`
behave identically and are both modelled as `[]`). -/
structure ServiceConfig where
  has_entries : Bool
  datasets : List DatasetDescriptor
deriving DecidableEq, Repr

/-- The error taxonomy of `errors.py` as far as the registry raises it. -/
inductive ServiceErr where
  | config_error : String → ServiceErr
  | not_found : String → ServiceErr
  | service_error : String → ServiceErr
deriving DecidableEq, Repr

/-- `ServiceContext.find_dataset_descriptor`: first descriptor whose
`Identifier` matches. -/
def find_dataset_descriptor (dataset_descriptors : List DatasetDescriptor)
    (ds_name : String) : Option DatasetDescriptor :=
  dataset_descriptors.find? (fun dsd => dsd.identifier == ds_name)

/-- The registry state: current configuration, the `dataset_cache` dict
(association list keyed by identifier, holding `(handle, descriptor)` pairs),
the record of closed handles, and the handle supply. -/
structure ServiceCtx where
  config : ServiceConfig
  dataset_cache : List (String × Nat × DatasetDescriptor)
  closed : List Nat
  next_handle : Nat
deriving DecidableEq, Repr

/-- The loop of the `config` setter over the snapshot of cached names:
close and delete every entry whose identifier is absent from the new
dataset list. -/
def close_removed (new_ds : List DatasetDescriptor) :
    List (String × Nat × DatasetDescriptor) → ServiceCtx → ServiceCtx
  | [], st => st
  | p :: rest, st =>
    if find_dataset_descriptor new_ds p.1 = none then
      close_removed new_ds rest
        { st with
          dataset_cache := st.dataset_cache.eraseP (fun e => e.1 == p.1),
          closed := st.closed ++ [p.2.1] }
    else close_removed new_ds rest st

/-- The `config` property setter of `ServiceContext`: when the old
configuration is truthy, clear-and-close everything if the new configuration
has no datasets, diff-close the identifiers that disappeared if both old and
new dataset lists are truthy, then store the new configuration.
(The `clean_image_caches` flag in the source is never set to `True`, so the
image-cache branch is dead code and not modelled.) -/
def ServiceCtx.set_config (st : ServiceCtx) (config : ServiceConfig) : ServiceCtx :=
  if st.config.has_entries then
    let new_ds := config.datasets
    let old_ds := st.config.datasets
    let st1 :=
      if new_ds.isEmpty then
        { st with
          closed := st.closed ++ st.dataset_cache.map (fun e => e.2.1),
          dataset_cache := [] }
      else st
    let st2 :=
      if ¬ new_ds.isEmpty ∧ ¬ old_ds.isEmpty then close_removed new_ds st1.dataset_cache st1
      else st1
    { st2 with config := config }
  else { st with config := config }

/-- The external opener capability: performs the actual (I/O) open of a
dataset for a descriptor, possibly failing. -/
def Opener : Type := DatasetDescriptor → Except ServiceErr Unit

/-- `ServiceContext.get_dataset_descriptor` (including the `No datasets
configured` check of `get_dataset_descriptors`). -/
def get_dataset_descriptor (cfg : ServiceConfig) (ds_id : String) :
    Except ServiceErr DatasetDescriptor :=
  if cfg.datasets.isEmpty then .error (.config_error "No datasets configured")
  else
    match find_dataset_descriptor cfg.datasets ds_id with
    | none => .error (.not_found ("Dataset \"" ++ ds_id ++ "\" not found"))
    | some dsd => .ok dsd

/-- `ServiceContext._create_dataset_entry`: look up the descriptor, validate
`Path`, dispatch on `FileSystem` and `Format` exactly as the source does, and
perform the open through the opener oracle.  On success the entry value is
`(handle, descriptor)` with the handle taken from the state's counter. -/
def create_dataset_entry (opener : Opener) (st : ServiceCtx) (ds_id : String) :
    Except ServiceErr (Nat × DatasetDescriptor) := do
  let dsd ← get_dataset_descriptor st.config ds_id
  match dsd.path with
  | none => throw (.config_error ("Missing 'path' entry in dataset descriptor " ++ ds_id))
  | some p =>
    if p = "" then throw (.config_error ("Missing 'path' entry in dataset descriptor " ++ ds_id))
    else
      let fs_type := dsd.file_system.getD "local"
      if fs_type = "obs" then do
        let data_format := dsd.format.getD "zarr"
        if data_format ≠ "zarr" then
          throw (.config_error ("Invalid format in dataset descriptor " ++ ds_id))
        else do
          let _ ← opener dsd
          return (st.next_handle, dsd)
      else if fs_type = "local" then do
        let data_format := dsd.format.getD "nc"
        if data_format = "nc" ∨ data_format = "zarr" ∨ data_format = "levels" then do
          let _ ← opener dsd
          return (st.next_handle, dsd)
        else throw (.config_error ("Invalid format in dataset descriptor " ++ ds_id))
      else if fs_type = "computed" then do
        let _ ← opener dsd
        return (st.next_handle, dsd)
      else throw (.config_error ("Invalid fs in dataset descriptor " ++ ds_id))

/-- `ServiceContext._get_dataset_entry`: return the cached entry when
present; otherwise create one and insert it under the identifier.  A failed
creation propagates the error and leaves the state untouched (the assignment
`self.dataset_cache[ds_id] = ...` never executes when the right-hand side
raises). -/
def ServiceCtx.get_dataset_entry (opener : Opener) (st : ServiceCtx) (ds_id : String) :
    ServiceCtx × Except ServiceErr (Nat × DatasetDescriptor) :=
  match st.dataset_cache.find? (fun e => e.1 == ds_id) with
  | some e => (st, .ok e.2)
  | none =>
    match create_dataset_entry opener st ds_id with
    | .error err => (st, .error err)
    | .ok entry =>
      ({ st with
          dataset_cache := st.dataset_cache ++ [(ds_id, entry)],
          next_handle := st.next_handle + 1 },
       .ok entry)

/-! ## Auxiliary definitions used by the theorems -/

deriving instance DecidableEq for Except

/-- Whether an `Except` result is a success. -/
def exceptIsOk {ε α : Type} : Except ε α → Bool
  | .ok _ => true
  | .error _ => false

/-- Whether an optional integer parameter is supplied with a negative value
(a supplied `0` is falsy in Python and gets replaced by the default). -/
def isNegOpt : Option Int → Bool
  | some v => v < 0
  | none => false

/-- The ranking chain as the amended claim words it: the same stable sorts in
the same priority order, but with the strongest, last-applied criterion being
the smaller signed difference `s_max - s` rather than its absolute value. -/
def claimed_rank_signed (ts_opt : Option Int) (s : Int) (l : List Subdiv) : List Subdiv :=
  let l1 := sortByKey (fun r => -r.nl) l
  let l2 :=
    match ts_opt with
    | some v => if v = 0 then l1 else sortByKey (fun r => |r.ts - v|) l1
    | none => l1
  let l3 := sortByKey (fun r => r.nt0) l2
  sortByKey (fun r => r.smax - s) l3

/-- A global geographic extent `GeoExtent(-180, -90, 180, 90)`. -/
def world_extent : GeoExtent := ⟨-180, -90, 180, 90, false, 1 / 100000⟩

/-- Keyed comparison is a total relation. -/
instance (key : Subdiv → Int) : IsTotal Subdiv fun a b => key a ≤ key b :=
  ⟨fun a b => le_total (key a) (key b)⟩

/-- Keyed comparison is a transitive relation. -/
instance (key : Subdiv → Int) : IsTrans Subdiv fun a b => key a ≤ key b :=
  ⟨fun _ _ _ => le_trans⟩

/-- Concrete descriptor for the registry scenarios. -/
def dsA : DatasetDescriptor := ⟨"A", some "a.nc", none, none⟩

/-- Concrete descriptor for the registry scenarios. -/
def dsB : DatasetDescriptor := ⟨"B", some "b.nc", none, none⟩

/-- A registry state with datasets `A` and `B` configured and both opened. -/
def ctxAB : ServiceCtx := ⟨⟨true, [dsA, dsB]⟩, [("A", 1, dsA), ("B", 2, dsB)], [], 3⟩

/-- A configuration that keeps only dataset `B`. -/
def cfgB : ServiceConfig := ⟨true, [dsB]⟩

/-- A concrete tile grid over the extent `(0, 0, 10, 10)` with tolerance 1. -/
def tgX : TileGrid := ⟨3, 2, 1, 256, 256, ⟨0, 0, 10, 10, false, 1⟩⟩

/-- A tile grid agreeing with `tgX` on all five structural fields but with a
different geographical extent `(0, 0, 20, 20)`. -/
def tgY : TileGrid := ⟨3, 2, 1, 256, 256, ⟨0, 0, 20, 20, false, 1⟩⟩


/-! # Theorems -/

/-! ## List helper lemmas -/

theorem lt_length_of_get?_eq_some {α : Type} {l : List α} {i : Nat} {a : α}
    (h : l.get? i = some a) : i < l.length := by
  by_contra hn
  rw [List.get?_eq_none.mpr (Nat.le_of_not_lt hn)] at h
  exact Option.noConfusion h

theorem get?_set_self {α : Type} : ∀ (l : List α) (i : Nat) (a : α), i < l.length →
    (l.set i a).get? i = some a
  | [], i, _, h => absurd h (Nat.not_lt_zero i)
  | _ :: _, 0, _, _ => rfl
  | _ :: xs, Nat.succ i, a, h => get?_set_self xs i a (Nat.lt_of_succ_lt_succ h)

theorem headI_mem {l : List Subdiv} (h : l ≠ []) : l.headI ∈ l := by
  cases l with
  | nil => exact absurd rfl h
  | cons a t => exact List.mem_cons_self a t

/-! ## Sorting helper lemmas -/

theorem sortByKey_perm (key : Subdiv → Int) (l : List Subdiv) :
    List.Perm (sortByKey key l) l :=
  List.perm_insertionSort _ l

theorem mem_sortByKey {x : Subdiv} (key : Subdiv → Int) {l : List Subdiv} :
    x ∈ sortByKey key l ↔ x ∈ l :=
  (sortByKey_perm key l).mem_iff

theorem sortByKey_ne_nil (key : Subdiv → Int) {l : List Subdiv} (h : l ≠ []) :
    sortByKey key l ≠ [] := by
  intro he
  have hlen := (sortByKey_perm key l).length_eq
  rw [he] at hlen
  exact h (List.eq_nil_of_length_eq_zero hlen.symm)

theorem sortByKey_headI_min (key : Subdiv → Int) {l : List Subdiv} (h : l ≠ []) :
    ∀ x ∈ l, key ((sortByKey key l).headI) ≤ key x := by
  intro x hx
  have hs := List.sorted_insertionSort (fun a b => key a ≤ key b) l
  cases hi : List.insertionSort (fun a b => key a ≤ key b) l with
  | nil => exact absurd (show sortByKey key l = [] from hi) (sortByKey_ne_nil key h)
  | cons a t =>
    have hhead : (sortByKey key l).headI = a := by unfold sortByKey; rw [hi]; rfl
    rw [hhead]
    have hx1 : x ∈ List.insertionSort (fun a b => key a ≤ key b) l :=
      (List.mem_insertionSort _).mpr hx
    rw [hi] at hx1 hs
    rcases List.mem_cons.mp hx1 with he | hmem
    · rw [he]
    · exact List.rel_of_sorted_cons hs x hmem

theorem claimed_rank_signed_decomp (ts_opt : Option Int) (s : Int) (l : List Subdiv) :
    ∃ m, claimed_rank_signed ts_opt s l = sortByKey (fun r => r.smax - s) m ∧
      List.Perm m l := by
  unfold claimed_rank_signed
  cases ts_opt with
  | none =>
    exact ⟨_, rfl, (sortByKey_perm _ _).trans (sortByKey_perm _ _)⟩
  | some v =>
    by_cases hv : v = 0
    · simp only [if_pos hv]
      exact ⟨_, rfl, (sortByKey_perm _ _).trans (sortByKey_perm _ _)⟩
    · simp only [if_neg hv]
      exact ⟨_, rfl,
        (sortByKey_perm _ _).trans ((sortByKey_perm _ _).trans (sortByKey_perm _ _))⟩

/-! ## Claim C1 -/

/-- C1 counterexample: for the axis extent `s = 100` in mode `LE` with tile
sizes bounded to `[10, 50]`, at least one candidate is accepted, yet
`pow2_1d_subdivision` does not return the candidate selected by the claim's
stable-sort chain whose strongest criterion is the smaller absolute distance
`|s_max - s|`: the code's final sort key is the signed `s_max - s`, picking
`(68, 34, 1, 2)` where the abs-keyed chain picks `(100, 25, 1, 3)`. -/
theorem C1_counterexample :
    pow2_1d_subdivision 100 MODE_LE none (some 10) (some 50) none none ≠
      .ok (claimed_selection_abs 100 MODE_LE none (some 10) (some 50) none none) := by
  decide

/-- C1 (amended): for every axis extent `s ≥ 1`, valid effective parameters,
no `s = ts_opt` short-circuit, and at least one accepted candidate,
`pow2_1d_subdivision` returns the head of the stable-sort chain applied in
order of increasing priority — larger `num_levels` (weakest), then tile size
closest to `ts_opt` when supplied, then smaller `nt0`, and, strongest and
last-applied, the smaller SIGNED difference `s_max - s` (not its absolute
value); consequently the result is an accepted candidate minimizing the
signed difference. -/
theorem C1_amended (s s_mode : Int) (ts_opt ts_min ts_max nt0_max nl_max : Option Int)
    (h1 : ¬ s < 1) (h2 : ts_opt ≠ some s)
    (h3 : ¬ eff_ts_min s ts_opt ts_min < 1) (h4 : ¬ eff_ts_max s ts_opt ts_max < 1)
    (h5 : ¬ optLt1 ts_opt = true) (h6 : ¬ eff_nt0_max nt0_max < 1)
    (h7 : ¬ eff_nl_max nl_max < 1)
    (hne : genSubdivisions s s_mode (eff_ts_min s ts_opt ts_min) (eff_ts_max s ts_opt ts_max)
      (eff_nt0_max nt0_max) (eff_nl_max nl_max) ≠ []) :
    pow2_1d_subdivision s s_mode ts_opt ts_min ts_max nt0_max nl_max =
      .ok ((claimed_rank_signed ts_opt s (genSubdivisions s s_mode
        (eff_ts_min s ts_opt ts_min) (eff_ts_max s ts_opt ts_max)
        (eff_nt0_max nt0_max) (eff_nl_max nl_max))).headI) ∧
    (claimed_rank_signed ts_opt s (genSubdivisions s s_mode
        (eff_ts_min s ts_opt ts_min) (eff_ts_max s ts_opt ts_max)
        (eff_nt0_max nt0_max) (eff_nl_max nl_max))).headI ∈
      genSubdivisions s s_mode (eff_ts_min s ts_opt ts_min) (eff_ts_max s ts_opt ts_max)
        (eff_nt0_max nt0_max) (eff_nl_max nl_max) ∧
    ∀ q ∈ genSubdivisions s s_mode (eff_ts_min s ts_opt ts_min)
        (eff_ts_max s ts_opt ts_max) (eff_nt0_max nt0_max) (eff_nl_max nl_max),
      (claimed_rank_signed ts_opt s (genSubdivisions s s_mode
        (eff_ts_min s ts_opt ts_min) (eff_ts_max s ts_opt ts_max)
        (eff_nt0_max nt0_max) (eff_nl_max nl_max))).headI.smax - s ≤ q.smax - s := by
  obtain ⟨m, hm, hperm⟩ := claimed_rank_signed_decomp ts_opt s
    (genSubdivisions s s_mode (eff_ts_min s ts_opt ts_min) (eff_ts_max s ts_opt ts_max)
      (eff_nt0_max nt0_max) (eff_nl_max nl_max))
  have hmne : m ≠ [] := by
    intro he
    apply hne
    have hlen := hperm.length_eq
    rw [he] at hlen
    exact List.eq_nil_of_length_eq_zero hlen.symm
  refine ⟨?_, ?_, ?_⟩
  · unfold pow2_1d_subdivision pow2_1d_subdivisions
    rw [if_neg h1, if_neg h2, if_neg h3, if_neg h4, if_neg h5, if_neg h6, if_neg h7,
      if_neg hne]
    rfl
  · rw [hm]
    exact hperm.subset ((mem_sortByKey _).mp (headI_mem (sortByKey_ne_nil _ hmne)))
  · intro q hq
    rw [hm]
    exact sortByKey_headI_min (fun r => r.smax - s) hmne q (hperm.symm.subset hq)

/-- C1 witness: the amended selection rule evaluated at the concrete `LE`
input of the counterexample. -/
theorem C1_witness :
    pow2_1d_subdivision 100 MODE_LE none (some 10) (some 50) none none =
      .ok ((claimed_rank_signed none 100 (genSubdivisions 100 MODE_LE
        (eff_ts_min 100 none (some 10)) (eff_ts_max 100 none (some 50))
        (eff_nt0_max none) (eff_nl_max none))).headI) :=
  (C1_amended 100 MODE_LE none (some 10) (some 50) none none (by decide) (by decide)
    (by decide) (by decide) (by decide) (by decide) (by decide) (by decide)).1

/-! ## Claim C2 -/

set_option maxRecDepth 100000 in
set_option maxHeartbeats 8000000 in
/-- C2: with image width `w = 2000`, height `h = 1000`, preferred tile sizes
`tw_opt = th_opt = 250`, and mode `GE` on both axes, `pow2_2d_subdivision`
returns the 3-level pyramid with 250x250 tiles and 2x1 tiles at level zero:
`numLevels = 3`, `tileWidth = tileHeight = 250`, `numLevelZeroTilesX = 2`,
`numLevelZeroTilesY = 1` (and actual size 2000x1000). -/
theorem C2_pow2_2d_subdivision_2000_1000 :
    pow2_2d_subdivision 2000 1000 MODE_GE MODE_GE (some 250) (some 250)
      none none none none none none = .ok ((2000, 1000), (250, 250), (2, 1), 3) := by
  decide

/-! ## Claim C8 -/

/-- C8 counterexample: `pow2_1d_subdivisions` is given `nt0_max = 0 < 1` and,
contrary to the claim, raises no error: Python's `nt0_max or 8` treats the
supplied `0` as absent and replaces it by the default `8`, so the call
succeeds (returning the single-tile fallback for `s = 100` in mode `EQ`). -/
theorem C8_counterexample :
    pow2_1d_subdivisions 100 MODE_EQ none none none (some 0) none =
      .ok [⟨100, 100, 1, 1⟩] := by
  decide

/-- C8 (amended): `pow2_1d_subdivisions` raises an invalid-parameter error,
returning no partial pyramid, whenever `s < 1`, or whenever (outside the
`s = ts_opt` short-circuit) `ts_opt` is supplied with a value `< 1` or any of
`ts_min`, `ts_max`, `nt0_max`, `nl_max` is supplied with a negative value;
a supplied value of `0` for the latter four is falsy in Python and is
replaced by the default instead of being rejected. -/
theorem C8_amended (s s_mode : Int) (ts_opt ts_min ts_max nt0_max nl_max : Option Int)
    (h : s < 1 ∨ (ts_opt ≠ some s ∧
      (optLt1 ts_opt = true ∨ isNegOpt ts_min = true ∨ isNegOpt ts_max = true ∨
        isNegOpt nt0_max = true ∨ isNegOpt nl_max = true))) :
    exceptIsOk (pow2_1d_subdivisions s s_mode ts_opt ts_min ts_max nt0_max nl_max) = false := by
  unfold pow2_1d_subdivisions
  by_cases h1 : s < 1
  · rw [if_pos h1]; rfl
  rw [if_neg h1]
  rcases h with h1' | ⟨h2, hbad⟩
  · exact absurd h1' h1
  rw [if_neg h2]
  by_cases h3 : eff_ts_min s ts_opt ts_min < 1
  · rw [if_pos h3]; rfl
  rw [if_neg h3]
  by_cases h4 : eff_ts_max s ts_opt ts_max < 1
  · rw [if_pos h4]; rfl
  rw [if_neg h4]
  by_cases h5 : optLt1 ts_opt = true
  · rw [if_pos h5]; rfl
  rw [if_neg h5]
  by_cases h6 : eff_nt0_max nt0_max < 1
  · rw [if_pos h6]; rfl
  rw [if_neg h6]
  by_cases h7 : eff_nl_max nl_max < 1
  · rw [if_pos h7]; rfl
  exfalso
  rcases hbad with hb | hb | hb | hb | hb
  · exact h5 hb
  · cases hmv : ts_min with
    | none => rw [hmv] at hb; exact Bool.noConfusion hb
    | some v =>
      rw [hmv] at hb
      have hv : v < 0 := by simpa [isNegOpt] using hb
      apply h3
      rw [hmv]
      simp only [eff_ts_min, pyOr]
      rw [if_neg (show ¬ v = 0 by omega)]
      omega
  · cases hmv : ts_max with
    | none => rw [hmv] at hb; exact Bool.noConfusion hb
    | some v =>
      rw [hmv] at hb
      have hv : v < 0 := by simpa [isNegOpt] using hb
      apply h4
      rw [hmv]
      simp only [eff_ts_max, pyOr]
      rw [if_neg (show ¬ v = 0 by omega)]
      omega
  · cases hmv : nt0_max with
    | none => rw [hmv] at hb; exact Bool.noConfusion hb
    | some v =>
      rw [hmv] at hb
      have hv : v < 0 := by simpa [isNegOpt] using hb
      apply h6
      rw [hmv]
      simp only [eff_nt0_max, pyOr]
      rw [if_neg (show ¬ v = 0 by omega)]
      omega
  · cases hmv : nl_max with
    | none => rw [hmv] at hb; exact Bool.noConfusion hb
    | some v =>
      rw [hmv] at hb
      have hv : v < 0 := by simpa [isNegOpt] using hb
      apply h7
      rw [hmv]
      simp only [eff_nl_max, pyOr]
      rw [if_neg (show ¬ v = 0 by omega)]
      omega

/-- C8 witness: the amended raise rule at `s = 5` with a negative `ts_min`. -/
theorem C8_witness :
    exceptIsOk (pow2_1d_subdivisions 5 MODE_EQ none (some (-1)) none none none) = false :=
  C8_amended 5 MODE_EQ none (some (-1)) none none none
    (Or.inr ⟨by decide, Or.inr (Or.inl (by decide))⟩)

/-! ## Claim C7 -/

/-- C7: for every lazily retrieved multi-level dataset (the `Lazy` variant,
and hence also the `Stored` variant, which inherits `get_dataset` and only
supplies the retrieval) and every valid level index whose slot is still
unrealized, when the retrieval yields a dataset the first `get_dataset` call
invokes the retrieval exactly once and memoizes the result, and every
subsequent call for the same index returns the very same handle with no
further retrieval and no state change (so `get_dataset` is idempotent). -/
theorem C7_get_dataset_idempotent (retrieve : Nat → Option Nat) (st : LazyMLD)
    (i : Nat) (v : Nat)
    (hslot : st.level_datasets.get? i = some none) (hret : retrieve i = some v) :
    (LazyMLD.get_dataset retrieve st i).1 = some v ∧
    (LazyMLD.get_dataset retrieve st i).2.retrieve_count = st.retrieve_count + 1 ∧
    LazyMLD.get_dataset retrieve (LazyMLD.get_dataset retrieve st i).2 i =
      (some v, (LazyMLD.get_dataset retrieve st i).2) := by
  have hlen : i < st.level_datasets.length := lt_length_of_get?_eq_some hslot
  have hset : (st.level_datasets.set i (some v)).get? i = some (some v) :=
    get?_set_self st.level_datasets i (some v) hlen
  unfold LazyMLD.get_dataset
  rw [hslot]
  dsimp only
  rw [hret, hset]
  dsimp only
  exact ⟨rfl, rfl, rfl⟩

/-- C7 witness: a one-level dataset whose retrieval returns handle `7`. -/
theorem C7_witness :
    (LazyMLD.get_dataset (fun _ => some 7) ⟨1, [none], 0⟩ 0).1 = some 7 :=
  (C7_get_dataset_idempotent (fun _ => some 7) ⟨1, [none], 0⟩ 0 7 rfl rfl).1

/-! ## Claim C10 -/

/-- C10: for a `Lazy` (or `Stored`) multi-level dataset, when the per-level
retrieval returns `None` for an index the result is NOT memoized: the call
returns `None`, the slot stays `None`, and a subsequent `get_dataset` call
for the same index invokes the retrieval again (the counter increments a
second time), so at-most-once realization holds only when the retrieval never
returns `None`. -/
theorem C10_none_retrieval_not_memoized (retrieve : Nat → Option Nat) (st : LazyMLD)
    (i : Nat)
    (hslot : st.level_datasets.get? i = some none) (hret : retrieve i = none) :
    (LazyMLD.get_dataset retrieve st i).1 = none ∧
    (LazyMLD.get_dataset retrieve st i).2.retrieve_count = st.retrieve_count + 1 ∧
    (LazyMLD.get_dataset retrieve st i).2.level_datasets.get? i = some none ∧
    (LazyMLD.get_dataset retrieve
      (LazyMLD.get_dataset retrieve st i).2 i).2.retrieve_count =
        st.retrieve_count + 2 := by
  have hlen : i < st.level_datasets.length := lt_length_of_get?_eq_some hslot
  have hset : (st.level_datasets.set i none).get? i = some none :=
    get?_set_self st.level_datasets i none hlen
  unfold LazyMLD.get_dataset
  rw [hslot]
  dsimp only
  rw [hret, hset]
  dsimp only
  exact ⟨rfl, rfl, rfl, rfl⟩

/-- C10 witness: a one-level dataset whose retrieval returns `None`; two
calls invoke the retrieval twice. -/
theorem C10_witness :
    (LazyMLD.get_dataset (fun _ => none)
      (LazyMLD.get_dataset (fun _ => none) ⟨1, [none], 0⟩ 0).2 0).2.retrieve_count = 2 :=
  (C10_none_retrieval_not_memoized (fun _ => none) ⟨1, [none], 0⟩ 0 rfl rfl).2.2.2

/-! ## Claim C5 -/

/-- C5: if creating the registry entry for a dataset identifier fails, the
error propagates to the caller, the registry state is left unchanged with no
cache entry for that identifier, and a later request for the identifier goes
through `_create_dataset_entry` again (a fresh open): with any opener for
which creation succeeds, the later request installs a fresh entry. -/
theorem C5_failed_open_not_cached (opener : Opener) (st : ServiceCtx) (ds_id : String)
    (err : ServiceErr)
    (hmiss : st.dataset_cache.find? (fun e => e.1 == ds_id) = none)
    (hfail : create_dataset_entry opener st ds_id = .error err) :
    ServiceCtx.get_dataset_entry opener st ds_id = (st, .error err) ∧
    (ServiceCtx.get_dataset_entry opener st ds_id).1.dataset_cache.find?
      (fun e => e.1 == ds_id) = none ∧
    ∀ opener2 entry, create_dataset_entry opener2 st ds_id = .ok entry →
      ServiceCtx.get_dataset_entry opener2 st ds_id =
        ({ st with
            dataset_cache := st.dataset_cache ++ [(ds_id, entry)],
            next_handle := st.next_handle + 1 }, .ok entry) := by
  have h1 : ServiceCtx.get_dataset_entry opener st ds_id = (st, .error err) := by
    unfold ServiceCtx.get_dataset_entry
    rw [hmiss, hfail]
  refine ⟨h1, ?_, ?_⟩
  · rw [h1]
    exact hmiss
  · intro opener2 entry hok
    unfold ServiceCtx.get_dataset_entry
    rw [hmiss, hok]

/-- C5 witness: with no datasets configured, creation fails with a
configuration error, nothing is cached, and the state is unchanged. -/
theorem C5_witness :
    ServiceCtx.get_dataset_entry (fun _ => .error (.service_error "io"))
      ⟨⟨false, []⟩, [], [], 0⟩ "A" =
      (⟨⟨false, []⟩, [], [], 0⟩, .error (.config_error "No datasets configured")) :=
  (C5_failed_open_not_cached (fun _ => .error (.service_error "io"))
    ⟨⟨false, []⟩, [], [], 0⟩ "A" (.config_error "No datasets configured") rfl (by decide)).1

/-! ## Claim C4 -/

theorem eraseP_key_append (p : String × Nat × DatasetDescriptor)
    (done rest : List (String × Nat × DatasetDescriptor))
    (h : ∀ q ∈ done, (q.1 == p.1) = false) :
    (done ++ p :: rest).eraseP (fun e => e.1 == p.1) = done ++ rest := by
  induction done with
  | nil =>
    simp only [List.nil_append]
    exact List.eraseP_cons_of_pos (by simp)
  | cons q done ih =>
    have hq : ¬ ((fun e => e.1 == p.1) q = true) := by
      have hv := h q (List.mem_cons_self q done)
      simp only [hv]
      exact Bool.false_ne_true
    have hstep : List.eraseP (fun e => e.1 == p.1) (q :: (done ++ p :: rest)) =
        q :: List.eraseP (fun e => e.1 == p.1) (done ++ p :: rest) :=
      List.eraseP_cons_of_neg hq
    rw [List.cons_append, hstep, ih (fun r hr => h r (List.mem_cons_of_mem q hr))]
    rfl

theorem close_removed_spec (new_ds : List DatasetDescriptor) :
    ∀ (snap done : List (String × Nat × DatasetDescriptor)) (cfg : ServiceConfig)
      (closedL : List Nat) (nh : Nat),
      (((done ++ snap).map Prod.fst).Nodup) →
      close_removed new_ds snap ⟨cfg, done ++ snap, closedL, nh⟩ =
        ⟨cfg,
         done ++ snap.filter (fun p => (find_dataset_descriptor new_ds p.1).isSome),
         closedL ++ (snap.filter (fun p => (find_dataset_descriptor new_ds p.1).isNone)).map
           (fun p => p.2.1),
         nh⟩ := by
  intro snap
  induction snap with
  | nil =>
    intro done cfg closedL nh _
    simp [close_removed]
  | cons p rest ih =>
    intro done cfg closedL nh hnod
    have hnod2 : ((done ++ rest).map Prod.fst).Nodup := by
      have hsub : (done ++ rest).Sublist (done ++ p :: rest) :=
        List.Sublist.append_left (List.sublist_cons_self p rest) done
      exact List.Nodup.sublist (List.Sublist.map Prod.fst hsub) hnod
    by_cases hf : find_dataset_descriptor new_ds p.1 = none
    · have hkey : ∀ q ∈ done, (q.1 == p.1) = false := by
        intro q hqmem
        have hmap := hnod
        rw [List.map_append, List.map_cons, List.nodup_append] at hmap
        have hdisj := hmap.2.2
        cases hx : (q.1 == p.1) with
        | false => rfl
        | true =>
          exfalso
          have hqp : q.1 = p.1 := eq_of_beq hx
          exact hdisj (List.mem_map_of_mem Prod.fst hqmem)
            (by rw [hqp]; exact List.mem_cons_self _ _)
      have hns : (find_dataset_descriptor new_ds p.1).isSome = false := by
        rw [hf]; rfl
      have hnn : (find_dataset_descriptor new_ds p.1).isNone = true := by
        rw [hf]; rfl
      unfold close_removed
      rw [if_pos hf]
      dsimp only
      rw [eraseP_key_append p done rest hkey]
      rw [ih done cfg (closedL ++ [p.2.1]) nh hnod2]
      simp [List.filter_cons, hns, hnn]
    · have hs : (find_dataset_descriptor new_ds p.1).isSome = true := by
        cases hopt : find_dataset_descriptor new_ds p.1 with
        | none => exact absurd hopt hf
        | some d => rfl
      have hn : (find_dataset_descriptor new_ds p.1).isNone = false := by
        cases hopt : find_dataset_descriptor new_ds p.1 with
        | none => exact absurd hopt hf
        | some d => rfl
      unfold close_removed
      rw [if_neg hf]
      have hre : done ++ p :: rest = (done ++ [p]) ++ rest := by simp
      rw [hre]
      rw [ih (done ++ [p]) cfg closedL nh (by rw [← hre]; exact hnod)]
      simp [List.filter_cons, hs, hn]

theorem find?_none_get_eq_create (opener : Opener) (st : ServiceCtx) (ds_id : String)
    (h : st.dataset_cache.find? (fun e => e.1 == ds_id) = none) :
    (ServiceCtx.get_dataset_entry opener st ds_id).2 =
      create_dataset_entry opener st ds_id := by
  unfold ServiceCtx.get_dataset_entry
  rw [h]
  cases create_dataset_entry opener st ds_id with
  | error err => rfl
  | ok entry => rfl

theorem close_removed_eval (new_ds : List DatasetDescriptor) (scfg : ServiceConfig)
    (scache : List (String × Nat × DatasetDescriptor)) (sclosed : List Nat) (snh : Nat)
    (hkeys : (scache.map Prod.fst).Nodup) :
    close_removed new_ds scache ⟨scfg, scache, sclosed, snh⟩ =
      ⟨scfg,
       scache.filter (fun p => (find_dataset_descriptor new_ds p.1).isSome),
       sclosed ++ (scache.filter (fun p => (find_dataset_descriptor new_ds p.1).isNone)).map
         (fun p => p.2.1),
       snh⟩ := by
  have h := close_removed_spec new_ds scache [] scfg sclosed snh (by simpa using hkeys)
  simpa using h

theorem set_config_eval_empty (scfg : ServiceConfig)
    (scache : List (String × Nat × DatasetDescriptor)) (sclosed : List Nat) (snh : Nat)
    (cfg : ServiceConfig) (hne : scfg.has_entries = true)
    (hemp : cfg.datasets.isEmpty = true) :
    ServiceCtx.set_config ⟨scfg, scache, sclosed, snh⟩ cfg =
      ⟨cfg, [], sclosed ++ scache.map (fun e => e.2.1), snh⟩ := by
  unfold ServiceCtx.set_config
  dsimp only
  rw [if_pos hne, if_pos hemp, if_neg (fun hc => hc.1 hemp)]

theorem set_config_eval_oldempty (scfg : ServiceConfig)
    (scache : List (String × Nat × DatasetDescriptor)) (sclosed : List Nat) (snh : Nat)
    (cfg : ServiceConfig) (hne : scfg.has_entries = true)
    (hemp : cfg.datasets.isEmpty = false) (hold : scfg.datasets.isEmpty = true) :
    ServiceCtx.set_config ⟨scfg, scache, sclosed, snh⟩ cfg =
      ⟨cfg, scache, sclosed, snh⟩ := by
  unfold ServiceCtx.set_config
  dsimp only
  rw [if_pos hne, if_neg (show ¬ cfg.datasets.isEmpty = true by simp [hemp]),
    if_neg (show ¬ (¬ cfg.datasets.isEmpty = true ∧ ¬ scfg.datasets.isEmpty = true) from
      fun hc => hc.2 hold)]

theorem set_config_eval_diff (scfg : ServiceConfig)
    (scache : List (String × Nat × DatasetDescriptor)) (sclosed : List Nat) (snh : Nat)
    (cfg : ServiceConfig) (hne : scfg.has_entries = true)
    (hemp : cfg.datasets.isEmpty = false) (hold : scfg.datasets.isEmpty = false)
    (hkeys : (scache.map Prod.fst).Nodup) :
    ServiceCtx.set_config ⟨scfg, scache, sclosed, snh⟩ cfg =
      ⟨cfg,
       scache.filter (fun p => (find_dataset_descriptor cfg.datasets p.1).isSome),
       sclosed ++ (scache.filter (fun p => (find_dataset_descriptor cfg.datasets p.1).isNone)).map
         (fun p => p.2.1),
       snh⟩ := by
  unfold ServiceCtx.set_config
  dsimp only
  rw [if_pos hne, if_neg (show ¬ cfg.datasets.isEmpty = true by simp [hemp]),
    if_pos (show ¬ cfg.datasets.isEmpty = true ∧ ¬ scfg.datasets.isEmpty = true by
      simp [hemp, hold])]
  dsimp only
  rw [close_removed_eval cfg.datasets scfg scache sclosed snh hkeys]

/-- C4: after a new configuration is assigned over a truthy old one, under
the registry invariants (cache keys unique, handles unique and not yet
closed, every cached identifier present in the old configuration's dataset
list): every cached identifier absent from the new configuration's dataset
list has its handle closed and its cache entry removed, and the next lookup
for it goes through `_create_dataset_entry` again (a fresh open); every
cached identifier still present keeps its entry unchanged and its handle is
not closed; if the new configuration has no datasets at all, every cached
handle is closed and the cache is cleared; and `set_config` itself opens
nothing (the handle counter is untouched) while installing the new
configuration. -/
theorem C4_set_config_invalidation (st : ServiceCtx) (cfg : ServiceConfig)
    (hne : st.config.has_entries = true)
    (hkeys : (st.dataset_cache.map Prod.fst).Nodup)
    (hhandles : (st.dataset_cache.map (fun e => e.2.1)).Nodup)
    (hclosed : ∀ p ∈ st.dataset_cache, p.2.1 ∉ st.closed)
    (hinv : ∀ p ∈ st.dataset_cache, ∃ d ∈ st.config.datasets, d.identifier = p.1) :
    (∀ p ∈ st.dataset_cache, find_dataset_descriptor cfg.datasets p.1 = none →
      p.2.1 ∈ (st.set_config cfg).closed ∧
      (st.set_config cfg).dataset_cache.find? (fun e => e.1 == p.1) = none ∧
      ∀ opener, ((st.set_config cfg).get_dataset_entry opener p.1).2 =
        create_dataset_entry opener (st.set_config cfg) p.1) ∧
    (∀ p ∈ st.dataset_cache, (find_dataset_descriptor cfg.datasets p.1).isSome = true →
      p ∈ (st.set_config cfg).dataset_cache ∧ p.2.1 ∉ (st.set_config cfg).closed) ∧
    (cfg.datasets = [] →
      (st.set_config cfg).dataset_cache = [] ∧
      (st.set_config cfg).closed = st.closed ++ st.dataset_cache.map (fun e => e.2.1)) ∧
    (st.set_config cfg).next_handle = st.next_handle ∧
    (st.set_config cfg).config = cfg := by
  obtain ⟨scfg, scache, sclosed, snh⟩ := st
  by_cases hemp : cfg.datasets.isEmpty = true
  · have hres := set_config_eval_empty scfg scache sclosed snh cfg hne hemp
    rw [hres]
    have hnil : cfg.datasets = [] := List.isEmpty_iff.mp hemp
    refine ⟨?_, ?_, ?_, rfl, rfl⟩
    · intro p hp _
      refine ⟨List.mem_append.mpr (Or.inr (List.mem_map_of_mem _ hp)), rfl, ?_⟩
      intro opener
      exact find?_none_get_eq_create opener _ p.1 rfl
    · intro p _ hsome
      rw [hnil] at hsome
      exact absurd hsome (by simp [find_dataset_descriptor])
    · intro _
      exact ⟨rfl, rfl⟩
  · have hempf : cfg.datasets.isEmpty = false := Bool.eq_false_iff.mpr hemp
    by_cases hold : scfg.datasets.isEmpty = true
    · have holdnil : scfg.datasets = [] := List.isEmpty_iff.mp hold
      have hres := set_config_eval_oldempty scfg scache sclosed snh cfg hne hempf hold
      rw [hres]
      refine ⟨?_, ?_, ?_, rfl, rfl⟩
      · intro p hp _
        exfalso
        obtain ⟨d, hd, _⟩ := hinv p hp
        rw [holdnil] at hd
        exact List.not_mem_nil d hd
      · intro p hp _
        exfalso
        obtain ⟨d, hd, _⟩ := hinv p hp
        rw [holdnil] at hd
        exact List.not_mem_nil d hd
      · intro hnil
        rw [hnil] at hempf
        exact absurd hempf (by simp)
    · have holdf : scfg.datasets.isEmpty = false := Bool.eq_false_iff.mpr hold
      have hres := set_config_eval_diff scfg scache sclosed snh cfg hne hempf holdf hkeys
      rw [hres]
      refine ⟨?_, ?_, ?_, rfl, rfl⟩
      · intro p hp hfind
        have hpn : (find_dataset_descriptor cfg.datasets p.1).isNone = true := by
          rw [hfind]; rfl
        have hfnone : (scache.filter
            (fun p => (find_dataset_descriptor cfg.datasets p.1).isSome)).find?
            (fun e => e.1 == p.1) = none := by
          rw [List.find?_eq_none]
          intro q hq hbe
          have hq2 := (List.mem_filter.mp hq).2
          have hqp : q.1 = p.1 := eq_of_beq hbe
          rw [hqp, hfind] at hq2
          exact Bool.noConfusion hq2
        refine ⟨?_, hfnone, ?_⟩
        · apply List.mem_append.mpr
          refine Or.inr (List.mem_map_of_mem _ ?_)
          exact List.mem_filter.mpr ⟨hp, hpn⟩
        · intro opener
          exact find?_none_get_eq_create opener _ p.1 hfnone
      · intro p hp hsome
        refine ⟨List.mem_filter.mpr ⟨hp, hsome⟩, ?_⟩
        intro hmem
        rcases List.mem_append.mp hmem with hl | hr
        · exact hclosed p hp hl
        · obtain ⟨q, hqf, hqe⟩ := List.mem_map.mp hr
          have hq := List.mem_filter.mp hqf
          have hqp : q = p := List.inj_on_of_nodup_map hhandles hq.1 hp hqe
          rw [hqp] at hq
          have hqn := hq.2
          rw [Option.isNone_iff_eq_none] at hqn
          rw [hqn] at hsome
          exact Bool.noConfusion hsome
      · intro hnil
        rw [hnil] at hempf
        exact absurd hempf (by simp)

/-- C4 witness: datasets `A` and `B` open, new configuration keeps only `B`:
`A`'s handle 1 is closed and its entry gone (the next lookup would re-create
it), `B`'s entry survives with handle 2 unclosed, and the handle counter is
unchanged. -/
theorem C4_witness :
    ((1 : Nat) ∈ (ctxAB.set_config cfgB).closed ∧
      (ctxAB.set_config cfgB).dataset_cache.find? (fun e => e.1 == "A") = none) ∧
    (("B", 2, dsB) ∈ (ctxAB.set_config cfgB).dataset_cache ∧
      (2 : Nat) ∉ (ctxAB.set_config cfgB).closed) ∧
    (ctxAB.set_config cfgB).next_handle = ctxAB.next_handle :=
  ⟨⟨((C4_set_config_invalidation ctxAB cfgB (by decide) (by decide) (by decide)
        (by decide) (by decide)).1 ("A", 1, dsA) (by decide) (by decide)).1,
    ((C4_set_config_invalidation ctxAB cfgB (by decide) (by decide) (by decide)
        (by decide) (by decide)).1 ("A", 1, dsA) (by decide) (by decide)).2.1⟩,
   ((C4_set_config_invalidation ctxAB cfgB (by decide) (by decide) (by decide)
        (by decide) (by decide)).2.1 ("B", 2, dsB) (by decide) (by decide)),
   ((C4_set_config_invalidation ctxAB cfgB (by decide) (by decide) (by decide)
        (by decide) (by decide)).2.2.2.1)⟩

/-! ## Claim C6 -/

theorem dictInsert_keys (k : Int) (v : String × String)
    (d : List (Int × String × String)) :
    (dictInsert k v d).map Prod.fst =
      if k ∈ d.map Prod.fst then d.map Prod.fst else d.map Prod.fst ++ [k] := by
  induction d with
  | nil => simp [dictInsert]
  | cons e rest ih =>
    obtain ⟨k2, v2⟩ := e
    by_cases hk : k2 = k
    · subst hk
      simp [dictInsert]
    · simp only [dictInsert, if_neg hk, List.map_cons]
      rw [ih]
      by_cases hmem : k ∈ rest.map Prod.fst
      · rw [if_pos hmem, if_pos (List.mem_cons_of_mem _ hmem)]
      · rw [if_neg hmem, if_neg (by
          intro hc
          rcases List.mem_cons.mp hc with h1 | h2
          · exact hk h1.symm
          · exact hmem h2)]
        rfl

theorem dictInsert_inv (nl idx : Int) (dict : List (Int × String × String))
    (v : String × String) (hidx0 : 0 ≤ idx)
    (h2 : (dict.map Prod.fst).Nodup)
    (h3 : ∀ k ∈ dict.map Prod.fst, 0 ≤ k ∧ k < nl) :
    (((dictInsert idx v dict).map Prod.fst).Nodup) ∧
    (∀ k ∈ (dictInsert idx v dict).map Prod.fst, 0 ≤ k ∧ k < max nl (idx + 1)) := by
  rw [dictInsert_keys]
  by_cases hmem : idx ∈ dict.map Prod.fst
  · rw [if_pos hmem]
    exact ⟨h2, fun k hk =>
      ⟨(h3 k hk).1, lt_of_lt_of_le (h3 k hk).2 (le_max_left _ _)⟩⟩
  · rw [if_neg hmem]
    constructor
    · rw [List.nodup_append]
      refine ⟨h2, List.nodup_singleton idx, ?_⟩
      intro a ha hb
      rw [List.mem_singleton] at hb
      rw [hb] at ha
      exact hmem ha
    · intro k hk
      rcases List.mem_append.mp hk with h | h
      · exact ⟨(h3 k h).1, lt_of_lt_of_le (h3 k h).2 (le_max_left _ _)⟩
      · rw [List.mem_singleton] at h
        rw [h]
        exact ⟨hidx0, lt_of_lt_of_le (by omega) (le_max_right nl (idx + 1))⟩

theorem scanStep_inv (acc : Int × List (Int × String × String)) (e : DirEntry)
    (h1 : acc.1 = -1 ∨ 1 ≤ acc.1)
    (h2 : (acc.2.map Prod.fst).Nodup)
    (h3 : ∀ k ∈ acc.2.map Prod.fst, 0 ≤ k ∧ k < acc.1) :
    ((scanStep acc e).1 = -1 ∨ 1 ≤ (scanStep acc e).1) ∧
    (((scanStep acc e).2.map Prod.fst).Nodup) ∧
    (∀ k ∈ (scanStep acc e).2.map Prod.fst, 0 ≤ k ∧ k < (scanStep acc e).1) := by
  obtain ⟨nl, dict⟩ := acc
  have hidx0 : (0 : Int) ≤ (digitsToNat (splitext e.name).1 : Int) := Int.ofNat_nonneg _
  have hmax1 : (1 : Int) ≤ max nl ((digitsToNat (splitext e.name).1 : Int) + 1) :=
    le_trans (by omega) (le_max_right _ _)
  have hboundlift : ∀ k ∈ dict.map Prod.fst,
      0 ≤ k ∧ k < max nl ((digitsToNat (splitext e.name).1 : Int) + 1) := fun k hk =>
    ⟨(h3 k hk).1, lt_of_lt_of_le (h3 k hk).2 (le_max_left _ _)⟩
  unfold scanStep
  dsimp only
  by_cases hd : pyIsdigit (splitext e.name).1 = true
  · rw [if_pos hd]
    by_cases hb1 : (e.is_file && ((splitext e.name).2 == ".link")) = true
    · rw [if_pos hb1]
      dsimp only
      have hi := dictInsert_inv nl ((digitsToNat (splitext e.name).1 : Int)) dict
        ((splitext e.name).2, e.name) hidx0 h2 h3
      exact ⟨Or.inr hmax1, hi.1, hi.2⟩
    · rw [if_neg hb1]
      by_cases hb2 : (e.is_dir && ((splitext e.name).2 == ".zarr")) = true
      · rw [if_pos hb2]
        dsimp only
        have hi := dictInsert_inv nl ((digitsToNat (splitext e.name).1 : Int)) dict
          ((splitext e.name).2, e.name) hidx0 h2 h3
        exact ⟨Or.inr hmax1, hi.1, hi.2⟩
      · rw [if_neg hb2]
        exact ⟨Or.inr hmax1, h2, hboundlift⟩
  · rw [if_neg hd]
    exact ⟨h1, h2, h3⟩

theorem storedScan_inv (entries : List DirEntry) :
    ((storedScan entries).1 = -1 ∨ 1 ≤ (storedScan entries).1) ∧
    (((storedScan entries).2.map Prod.fst).Nodup) ∧
    (∀ k ∈ (storedScan entries).2.map Prod.fst,
      0 ≤ k ∧ k < (storedScan entries).1) := by
  suffices h : ∀ (es : List DirEntry) (acc : Int × List (Int × String × String)),
      (acc.1 = -1 ∨ 1 ≤ acc.1) → ((acc.2.map Prod.fst).Nodup) →
      (∀ k ∈ acc.2.map Prod.fst, 0 ≤ k ∧ k < acc.1) →
      ((es.foldl scanStep acc).1 = -1 ∨ 1 ≤ (es.foldl scanStep acc).1) ∧
      (((es.foldl scanStep acc).2.map Prod.fst).Nodup) ∧
      (∀ k ∈ (es.foldl scanStep acc).2.map Prod.fst,
        0 ≤ k ∧ k < (es.foldl scanStep acc).1) by
    exact h entries (-1, []) (Or.inl rfl) List.nodup_nil (by simp)
  intro es
  induction es with
  | nil =>
    intro acc a b c
    exact ⟨a, b, c⟩
  | cons e rest ih =>
    intro acc a b c
    have hstep := scanStep_inv acc e a b c
    exact ih (scanStep acc e) hstep.1 hstep.2.1 hstep.2.2

theorem keys_cover (K : List Int) (n : Int) (hnd : K.Nodup)
    (hb : ∀ k ∈ K, 0 ≤ k ∧ k < n) (hl : (K.length : Int) = n) :
    ∀ i : Int, 0 ≤ i → i < n → i ∈ K := by
  intro i h0 hi
  have hsub : K.toFinset ⊆ Finset.Icc 0 (n - 1) := by
    intro k hk
    have hkk := hb k (List.mem_toFinset.mp hk)
    exact Finset.mem_Icc.mpr ⟨hkk.1, by omega⟩
  have hcard : K.toFinset.card = K.length := List.toFinset_card_of_nodup hnd
  have hicc : (Finset.Icc (0 : Int) (n - 1)).card = K.length := by
    rw [Int.card_Icc]
    omega
  have heq : K.toFinset = Finset.Icc 0 (n - 1) :=
    Finset.eq_of_subset_of_card_le hsub (by rw [hicc, hcard])
  have hmem : i ∈ K.toFinset := by
    rw [heq]
    exact Finset.mem_Icc.mpr ⟨h0, by omega⟩
  exact List.mem_toFinset.mp hmem

/-- C6 counterexample: a directory holding `0.zarr` and `00.zarr` — two
distinct entries with the SAME level index 0 — is accepted by the stored
constructor (the later entry overwrites the earlier one in the dict), so
duplicate level indices are not rejected, contrary to the claim. -/
theorem C6_counterexample :
    storedInit [⟨"0.zarr", false, true⟩, ⟨"00.zarr", false, true⟩] =
      .ok (1, [(0, (".zarr", "00.zarr"))]) := by
  decide

/-- C6 (amended): `StoredMultiLevelDataset` construction scans the directory
once and fails exactly when the discovered maximum level index + 1 differs
from the number of DISTINCT discovered level indices (the `level_paths` dict
keys); on success the discovered indices are exactly `0 .. num_levels - 1`
(gaps such as `0.zarr` with `2.zarr` but no `1.zarr` are rejected), but
duplicate indices arriving under different file names collapse to a single
dict entry and are NOT rejected. -/
theorem C6_stored_init_contiguous (entries : List DirEntry) :
    (exceptIsOk (storedInit entries) = true ↔
      (storedScan entries).1 = ((storedScan entries).2.length : Int)) ∧
    (exceptIsOk (storedInit entries) = true →
      ∀ i : Int, 0 ≤ i → i < (storedScan entries).1 →
        i ∈ (storedScan entries).2.map Prod.fst) := by
  obtain ⟨hnl, hnd, hbound⟩ := storedScan_inv entries
  have hlen0 : (0 : Int) ≤ ((storedScan entries).2.length : Int) := Int.ofNat_nonneg _
  have heqok : ∀ (hok : exceptIsOk (storedInit entries) = true),
      (storedScan entries).1 = ((storedScan entries).2.length : Int) := by
    intro hok
    by_contra hne
    unfold storedInit at hok
    rw [if_pos hne] at hok
    exact Bool.noConfusion hok
  constructor
  · constructor
    · exact heqok
    · intro heq
      unfold storedInit
      rw [if_neg (fun hc => hc heq), if_neg (by
        rcases hnl with hm | hm
        · omega
        · omega)]
      rfl
  · intro hok i h0 hi
    have heq := heqok hok
    exact keys_cover ((storedScan entries).2.map Prod.fst) ((storedScan entries).1)
      hnd hbound (by rw [List.length_map]; exact heq.symm) i h0 hi

/-- C6 witness: a contiguous two-level directory (`0.zarr`, `1.link`) is
accepted and its discovered indices cover `0` and `1`. -/
theorem C6_witness :
    ((0 : Int) ∈ (storedScan [⟨"0.zarr", false, true⟩,
        ⟨"1.link", true, false⟩]).2.map Prod.fst) ∧
    ((1 : Int) ∈ (storedScan [⟨"0.zarr", false, true⟩,
        ⟨"1.link", true, false⟩]).2.map Prod.fst) :=
  ⟨(C6_stored_init_contiguous [⟨"0.zarr", false, true⟩, ⟨"1.link", true, false⟩]).2
      (by decide) 0 (by decide) (by decide),
   (C6_stored_init_contiguous [⟨"0.zarr", false, true⟩, ⟨"1.link", true, false⟩]).2
      (by decide) 1 (by decide) (by decide)⟩

/-! ## Claim C9 -/

theorem geoextent_eqv_symm (a b : GeoExtent) (h : GeoExtent.eqv a b) :
    GeoExtent.eqv b a := by
  obtain ⟨h1, h2, h3, h4, h5⟩ := h
  refine ⟨?_, ?_, ?_, ?_, h5.symm⟩ <;> rw [abs_sub_comm, max_comm] <;> assumption

theorem adjust_geo_extent_eps (g : GeoExtent) (a b c d : Int) (g2 : GeoExtent)
    (h : TileGrid.adjust_geo_extent g a b c d = .ok g2) : g2.eps = g.eps := by
  unfold TileGrid.adjust_geo_extent at h
  by_cases h1 : ¬ a ≤ c
  · rw [if_pos h1] at h
    exact Except.noConfusion h
  rw [if_neg h1] at h
  by_cases h2 : ¬ b ≤ d
  · rw [if_pos h2] at h
    exact Except.noConfusion h
  rw [if_neg h2] at h
  dsimp only at h
  injection h with h3
  rw [← h3]

theorem create_eps (w h tw th : Int) (g : GeoExtent) (t : TileGrid)
    (hc : TileGrid.create w h tw th g = .ok t) : t.geo_extent.eps = g.eps := by
  unfold TileGrid.create at hc
  cases hsub : pow2_2d_subdivision w h
      (if g.west = -180 ∧ g.east = 180 then MODE_EQ else MODE_GE)
      (if (g.south = -90 ∧ g.south = 90) ∨ (g.south = 90 ∧ g.north = -90) then MODE_EQ
       else MODE_GE)
      (some (min w (pyOrInt tw 256))) (some (min h (pyOrInt th 256)))
      none none none none none none with
  | error e =>
    rw [hsub] at hc
    exact Except.noConfusion hc
  | ok r =>
    rw [hsub] at hc
    dsimp only at hc
    cases hadj : TileGrid.adjust_geo_extent g w h r.1.1 r.1.2 with
    | error e =>
      rw [hadj] at hc
      exact Except.noConfusion hc
    | ok g2 =>
      rw [hadj] at hc
      injection hc with h3
      rw [← h3]
      exact adjust_geo_extent_eps g w h r.1.1 r.1.2 g2 hadj

/-- C9 counterexample: `tgX` and `tgY` agree on all five structural fields
(`num_levels`, `num_level_zero_tiles_x/y`, `tile_width/height`) yet are NOT
equal under `TileGrid.__eq__`, because the comparison also includes the
geographical extent — equality is not based solely on the five fields. -/
theorem C9_counterexample :
    (tgX.num_levels = tgY.num_levels ∧
     tgX.num_level_zero_tiles_x = tgY.num_level_zero_tiles_x ∧
     tgX.num_level_zero_tiles_y = tgY.num_level_zero_tiles_y ∧
     tgX.tile_width = tgY.tile_width ∧ tgX.tile_height = tgY.tile_height) ∧
    ¬ TileGrid.eqv tgX tgY := by
  refine ⟨⟨rfl, rfl, rfl, rfl, rfl⟩, ?_⟩
  intro h
  have h3 := h.2.2.2.2.2.2.2.1
  norm_num [tgX, tgY] at h3

/-- C9 (amended): `TileGrid` equality is reflexive (given a nonnegative
tolerance) and symmetric, and is based on the five structural fields PLUS the
tolerance-based equality of the geographical extent: two grids agreeing on
the five fields and with tolerance-equal extents are equal, and a grid built
by `TileGrid.create` equals itself (same inputs give the same grid, and the
built grid keeps the input extent's tolerance). -/
theorem C9_eqv_props :
    (∀ t : TileGrid, 0 ≤ t.geo_extent.eps → TileGrid.eqv t t) ∧
    (∀ a b : TileGrid, TileGrid.eqv a b → TileGrid.eqv b a) ∧
    (∀ a b : TileGrid,
      a.num_levels = b.num_levels → a.tile_width = b.tile_width →
      a.tile_height = b.tile_height →
      a.num_level_zero_tiles_x = b.num_level_zero_tiles_x →
      a.num_level_zero_tiles_y = b.num_level_zero_tiles_y →
      GeoExtent.eqv a.geo_extent b.geo_extent → TileGrid.eqv a b) ∧
    (∀ (w h tw th : Int) (g : GeoExtent) (t : TileGrid),
      TileGrid.create w h tw th g = .ok t → 0 ≤ g.eps → TileGrid.eqv t t) := by
  have hrefl : ∀ t : TileGrid, 0 ≤ t.geo_extent.eps → TileGrid.eqv t t := by
    intro t heps
    have habs : ∀ x : Rat, |x - x| ≤ max t.geo_extent.eps t.geo_extent.eps := by
      intro x
      rw [sub_self, abs_zero, max_self]
      exact heps
    exact ⟨rfl, rfl, rfl, rfl, rfl, habs _, habs _, habs _, habs _, rfl⟩
  refine ⟨hrefl, ?_, ?_, ?_⟩
  · intro a b h
    obtain ⟨e1, e2, e3, e4, e5, e6⟩ := h
    exact ⟨e1.symm, e2.symm, e3.symm, e4.symm, e5.symm, geoextent_eqv_symm _ _ e6⟩
  · intro a b f1 f2 f3 f4 f5 hge
    exact ⟨f1, f2, f3, f4, f5, hge⟩
  · intro w h tw th g t hc heps
    apply hrefl
    rw [create_eps w h tw th g t hc]
    exact heps

/-- C9 witness: reflexivity of the tile-grid equality at the concrete grid
`tgX` (whose tolerance is nonnegative). -/
theorem C9_witness : TileGrid.eqv tgX tgX :=
  C9_eqv_props.1 tgX zero_le_one

/-! ## Claim C3 -/

set_option maxRecDepth 100000 in
set_option maxHeartbeats 8000000 in
/-- C3 counterexample: for the world raster `w = 1024`, `h = 512` with the
global geographic extent and default 256x256 tiles, the computed tile grid
does NOT have 3 levels: the two axes settle on 3 and 2 levels respectively,
and the 2D reconciliation takes the smaller count, so the grid has 2 levels
(the spec's 3-level figures correspond to a 2048x1024 world raster). -/
theorem C3_counterexample :
    (TileGrid.create 1024 512 256 256 world_extent).map
      (fun t => (t.num_levels, t.num_level_zero_tiles_x, t.num_level_zero_tiles_y)) ≠
      .ok (3, 2, 1) := by
  decide

set_option maxRecDepth 100000 in
set_option maxHeartbeats 8000000 in
/-- C3 (amended): for the world raster `w = 1024`, `h = 512` with the global
geographic extent `GeoExtent(-180, -90, 180, 90)` and the default 256x256
tile size, the computed tile grid has 2 level-zero tiles in X, 1 in Y, and
2 levels in total, with 256x256 tiles. -/
theorem C3_world_tilegrid :
    (TileGrid.create 1024 512 256 256 world_extent).map
      (fun t => (t.num_levels, t.num_level_zero_tiles_x, t.num_level_zero_tiles_y,
        t.tile_width, t.tile_height)) = .ok (2, 2, 1, 256, 256) := by
  decide
